import Mathlib

/-!
Shallow embedding of `txamqp_helpers/amqp.py` (classes `AMQPProtocol` and
`AMQPFactory`).  Python values that flow into broker directives are modelled
by `PyVal`, the duck-typed "dict or string" arguments by `PyArg`, and every
observable effect (broker directive, log line, deferred firing) by an event
in the list each operation emits.  The factory and the protocol it owns are
modelled as explicit state records, and the asynchronous callback chains of
the handshake are driven by an `Act` step relation: each external completion
(auth result, channel result, transport events, application calls) is one
action of a trace.
-/

/-- Python values appearing in directive keyword arguments. -/
inductive PyVal where
  | none
  | str (s : String)
  | bool (b : Bool)
  | nat (n : Nat)
deriving DecidableEq

/-- A Python dict of keyword arguments, as an insertion-ordered association list. -/
abbrev Dict := List (String × PyVal)

def dget (d : Dict) (k : String) : PyVal :=
  match d with
  | [] => PyVal.none
  | (k2, v) :: r => if k2 = k then v else dget r k

def dset (d : Dict) (k : String) (v : PyVal) : Dict :=
  match d with
  | [] => [(k, v)]
  | (k2, v2) :: r => if k2 = k then (k2, v) :: r else (k2, v2) :: dset r k v

def dhasKey (d : Dict) (k : String) : Bool :=
  match d with
  | [] => false
  | (k2, _) :: r => k2 = k || dhasKey r k

def dupdate (d e : Dict) : Dict := e.foldl (fun a kv => dset a kv.1 kv.2) d

/-- amqp.py lines 26-30. -/
def exchange_defaults : Dict :=
  [("type", PyVal.str "direct"), ("durable", PyVal.bool true),
   ("auto_delete", PyVal.bool false)]

/-- amqp.py lines 32-36. -/
def queue_defaults : Dict :=
  [("durable", PyVal.bool true), ("exclusive", PyVal.bool false),
   ("auto_delete", PyVal.bool false)]

/-- A duck-typed argument: Python `None`, a plain string, or a dict. -/
inductive PyArg where
  | none
  | str (s : String)
  | dict (d : Dict)
deriving DecidableEq

/-- amqp.py lines 134-138 and 179-183: `exchange_cfg = dict(exchange_defaults)`,
then `update` with a dict argument or set `exchange_cfg['exchange']` to the
argument itself. -/
def exchangeCfgOf (exchange : PyArg) : Dict :=
  match exchange with
  | PyArg.dict d => dupdate exchange_defaults d
  | PyArg.str s => dset exchange_defaults "exchange" (PyVal.str s)
  | PyArg.none => dset exchange_defaults "exchange" PyVal.none

/-- The exchange name used for queue-name defaulting (amqp.py lines 128-131). -/
def exchangeNameArg (exchange : PyArg) : PyVal :=
  match exchange with
  | PyArg.dict d => dget d "exchange"
  | PyArg.str s => PyVal.str s
  | PyArg.none => PyVal.none

/-- amqp.py lines 126-131: only when the queue argument is a dict without a
`queue` key is the exchange name filled in as the queue name. -/
def defaultedQueue (exchange queue : PyArg) : PyArg :=
  match queue with
  | PyArg.dict d =>
      if dhasKey d "queue" then PyArg.dict d
      else PyArg.dict (dset d "queue" (exchangeNameArg exchange))
  | q => q

/-- amqp.py lines 145-149: `queue_cfg = dict(queue_defaults)`, then `update`
with a dict argument or set `queue_cfg['queue']` to the argument itself. -/
def queueCfgOf (queue : PyArg) : Dict :=
  match queue with
  | PyArg.dict d => dupdate queue_defaults d
  | PyArg.str s => dset queue_defaults "queue" (PyVal.str s)
  | PyArg.none => dset queue_defaults "queue" PyVal.none

/-- One entry of `AMQPFactory.queued_messages` (amqp.py line 289): the tuple
appended by `send_message`, plus a ghost sequence number `qid` standing for
the identity of the `sent` deferred (the completion handle). -/
structure QMsg where
  exchange : PyArg
  routing_key : String
  msg : String
  delivery_mode : Nat
  immediate : Bool
  mandatory : Bool
  qid : Nat
deriving DecidableEq

/-- One entry of `AMQPFactory.read_list` (amqp.py line 303); the handler is a
ghost identifier. -/
structure ReadEntry where
  exchange : PyArg
  routing_key : String
  callback : Nat
  queue : PyArg
  no_ack : Bool
deriving DecidableEq

/-- Position of a protocol instance in its callback-chained handshake
(`connectionMade` / `_authenticated` / `_got_channel` / `_channel_open`).
The value `closed` is the spec's terminal state; the code never assigns it to
a live protocol - teardown happens only by the factory dropping the protocol
on `clientConnectionLost`. -/
inductive HState where
  | connectingAuth
  | gettingChannel
  | openingChannel
  | ready
  | closed
deriving DecidableEq

/-- The mutable state of one `AMQPProtocol` instance: the `connected` flag
(amqp.py lines 57 and 85) and the `_consumer_tag` counter (lines 45-50,
0 meaning the attribute is still unset). -/
structure Proto where
  connected : Bool
  consumer_tag : Nat
  hs : HState
deriving DecidableEq

/-- The state of one `AMQPFactory` (amqp.py lines 224-253).  `delay` models
the `ReconnectingClientFactory` backoff counter relative to its minimum:
`resetDelay()` sets it to 0 and every failed/lost connection increments it.
`nextQid` is the ghost counter handing out `QMsg.qid` values in `send_message`
call order. -/
structure Factory where
  user : String
  password : String
  vhost : String
  host : String
  port : Nat
  spec_file : String
  prefetch_count : Option Nat
  initial_deferred_fired : Bool
  p : Option Proto
  queued_messages : List QMsg
  read_list : List ReadEntry
  delay : Nat
  nextQid : Nat
deriving DecidableEq

/-- Observable effects: directives submitted to the broker library, log
output, and deferred firings.  `basic_publish` carries the ghost `qid` of the
message being published. -/
inductive Ev where
  | connectTCP (host : String) (port : Nat)
  | connectSSL (host : String) (port : Nat)
  | start (user password : String)
  | channel (n : Nat)
  | channel_open
  | basic_qos (prefetch_count : Nat)
  | exchange_declare (cfg : Dict)
  | queue_declare (cfg : Dict)
  | queue_bind (queue exchange : PyVal) (routing_key : String)
  | basic_consume (queue : PyVal) (no_ack : Bool) (consumer_tag : String)
  | queue_get (consumer_tag : String) (callback : Nat) (no_ack : Bool)
  | basic_publish (exchange : PyVal) (routing_key : String) (payload : String)
      (delivery_mode : Nat) (immediate mandatory : Bool) (qid : Nat)
  | basic_ack (delivery_tag : Nat)
  | handler (callback : Nat) (payload : String)
  | log (s : String)
  | fireInitial
deriving DecidableEq

/-- Python `x or default` for string parameters (empty string is falsy). -/
def pyOrS (v : Option String) (d : String) : String :=
  match v with
  | some s => if s = "" then d else s
  | Option.none => d

/-- Python `x or default` for numeric parameters (0 is falsy). -/
def pyOrN (v : Option Nat) (d : Nat) : Nat :=
  match v with
  | some n => if n = 0 then d else n
  | Option.none => d

/-- amqp.py lines 224-253, `AMQPFactory.__init__`: fill in the defaulted
connection parameters, start with empty queues and no protocol, and
immediately initiate the TCP (or SSL) connection. -/
def mkFactory (spec_file vhost host : Option String) (port : Option Nat)
    (user password : Option String) (prefetch_count : Option Nat)
    (use_ssl : Bool) : Factory × List Ev :=
  let f : Factory :=
    { spec_file := pyOrS spec_file "amqp0-8.xml"
      user := pyOrS user "guest"
      password := pyOrS password "guest"
      vhost := pyOrS vhost "/"
      host := pyOrS host "localhost"
      port := pyOrN port 5672
      prefetch_count := prefetch_count
      initial_deferred_fired := false
      p := Option.none
      queued_messages := []
      read_list := []
      delay := 0
      nextQid := 0 }
  (f, if use_ssl then [Ev.connectSSL f.host f.port] else [Ev.connectTCP f.host f.port])

/-- The factory built with every parameter left unset and `use_ssl = False`. -/
def factory0 : Factory :=
  (mkFactory Option.none Option.none Option.none Option.none Option.none
    Option.none Option.none false).1

/-- amqp.py lines 123-161, `AMQPProtocol.setup_read` with every yielded
directive succeeding: declare the exchange, allocate the next consumer tag
(`get_consumer_tag`, lines 45-50), declare and bind the queue, start
consuming, and arm the first `queue.get()` of the delivery loop. -/
def setup_read (p : Proto) (exchange : PyArg) (routing_key : String)
    (callback : Nat) (queue : PyArg) (no_ack : Bool) : Proto × List Ev :=
  let q1 := defaultedQueue exchange queue
  let exchange_cfg := exchangeCfgOf exchange
  let p2 : Proto := { p with consumer_tag := p.consumer_tag + 1 }
  let tag := toString p2.consumer_tag
  let queue_cfg := queueCfgOf q1
  (p2,
    [Ev.exchange_declare exchange_cfg,
     Ev.queue_declare queue_cfg,
     Ev.queue_bind (dget queue_cfg "queue") (dget exchange_cfg "exchange") routing_key,
     Ev.basic_consume (dget queue_cfg "queue") no_ack tag,
     Ev.queue_get tag callback no_ack])

/-- amqp.py lines 91-93: `for l in self.factory.read_list: self.setup_read(*l)`. -/
def setup_reads (p : Proto) : List ReadEntry → Proto × List Ev
  | [] => (p, [])
  | e :: r =>
      let s1 := setup_read p e.exchange e.routing_key e.callback e.queue e.no_ack
      let s2 := setup_reads s1.1 r
      (s2.1, s1.2 ++ s2.2)

/-- amqp.py lines 175-192, `AMQPProtocol._send_message` with both yielded
directives succeeding: re-declare the exchange, then publish the content with
its delivery-mode. -/
def send_message_events (m : QMsg) : List Ev :=
  let exchange_cfg := exchangeCfgOf m.exchange
  [Ev.exchange_declare exchange_cfg,
   Ev.basic_publish (dget exchange_cfg "exchange") m.routing_key m.msg
     m.delivery_mode m.immediate m.mandatory m.qid]

/-- amqp.py lines 114-119, `AMQPProtocol.send` when connected: pop the front
of `factory.queued_messages` and `_send_message` it, until the queue is
empty. -/
def send_drain : List QMsg → List Ev
  | [] => []
  | m :: r => send_message_events m ++ send_drain r

/-- amqp.py lines 80-101, `AMQPProtocol._channel_open`: set `connected`,
apply the prefetch QoS if one was configured (Python truthiness: `None` and
0 both skip it), activate every entry of `read_list` in order, drain the
factory's message queue, and fire the factory's initial-connect deferred if
it has not fired yet. -/
def channel_open_step (st : Factory) (p : Proto) : Factory × List Ev :=
  let p1 : Proto := { p with connected := true, hs := HState.ready }
  let qosEvs : List Ev :=
    match st.prefetch_count with
    | some n => if n = 0 then [] else [Ev.basic_qos n]
    | Option.none => []
  let s := setup_reads p1 st.read_list
  let sendEvs := send_drain st.queued_messages
  let fireEvs : List Ev := if st.initial_deferred_fired then [] else [Ev.fireInitial]
  ({ st with p := some s.1, queued_messages := [], initial_deferred_fired := true },
   qosEvs ++ s.2 ++ sendEvs ++ fireEvs)

/-- amqp.py lines 281-295, `AMQPFactory.send_message`: assert the arguments,
append the message (with a fresh completion handle `qid`) to
`queued_messages`, and if a protocol exists ask it to `send()`, which drains
the whole queue when the protocol is connected (lines 114-119). -/
def fsend_message (st : Factory) (exchange : PyArg) (msg : Option String)
    (routing_key : String) (delivery_mode : Nat) (immediate mandatory : Bool) :
    Except String (Factory × List Ev × Nat) :=
  if exchange = PyArg.none ∨ msg = Option.none then Except.error "AssertionError"
  else
    let qid := st.nextQid
    let m : QMsg :=
      { exchange := exchange, routing_key := routing_key, msg := msg.getD ""
        delivery_mode := delivery_mode, immediate := immediate
        mandatory := mandatory, qid := qid }
    let st2 := { st with queued_messages := st.queued_messages ++ [m], nextQid := qid + 1 }
    match st2.p with
    | some p =>
        if p.connected then
          Except.ok ({ st2 with queued_messages := [] }, send_drain st2.queued_messages, qid)
        else Except.ok (st2, [], qid)
    | Option.none => Except.ok (st2, [], qid)

/-- amqp.py lines 298-307, `AMQPFactory.read`: assert the arguments, append
the entry to `read_list`, and if a protocol exists forward to
`AMQPProtocol.read` (lines 103-111), which activates the subscription
immediately only when the protocol is connected. -/
def fread (st : Factory) (exchange : PyArg) (callback : Option Nat)
    (routing_key : String) (queue : PyArg) (no_ack : Bool) :
    Except String (Factory × List Ev) :=
  if exchange = PyArg.none ∨ callback = Option.none then Except.error "AssertionError"
  else
    let e : ReadEntry :=
      { exchange := exchange, routing_key := routing_key
        callback := callback.getD 0, queue := queue, no_ack := no_ack }
    let st2 := { st with read_list := st.read_list ++ [e] }
    match st2.p with
    | some p =>
        if p.connected then
          let s := setup_read p e.exchange e.routing_key e.callback e.queue e.no_ack
          Except.ok ({ st2 with p := some s.1 }, s.2)
        else Except.ok (st2, [])
    | Option.none => Except.ok (st2, [])

def exceptErr {α : Type} (x : Except String α) : Bool :=
  match x with
  | Except.error _ => true
  | Except.ok _ => false

/-- External happenings driving the factory: application calls and the
asynchronous completions of the transport and of each handshake step. -/
inductive Act where
  | send_message (exchange : PyArg) (msg : Option String) (routing_key : String)
      (delivery_mode : Nat) (immediate mandatory : Bool)
  | read (exchange : PyArg) (callback : Option Nat) (routing_key : String)
      (queue : PyArg) (no_ack : Bool)
  | transportConnected
  | authOk
  | authFailed
  | channelOk
  | channelFailed
  | channel_openOk
  | channel_openFailed
  | connectionLost
  | connectionFailed
deriving DecidableEq

/-- One step of the factory/protocol pair.

* `send_message` / `read`: amqp.py lines 281-307 (an assertion failure
  propagates to the caller and leaves the state untouched);
* `transportConnected`: `buildProtocol` (lines 256-266, fresh protocol,
  `resetDelay()`) followed by `connectionMade` (lines 52-62, `connected =
  False`, submit the login);
* `authOk` / `channelOk` / `channel_openOk`: the callback chain
  `_authenticated` / `_got_channel` / `_channel_open` (lines 65-101);
* `authFailed` / `channelFailed` / `channel_openFailed`: the errbacks at
  lines 163-172, which only print;
* `connectionLost` / `connectionFailed`: lines 269-278, which print, drop the
  protocol (for `connectionLost`), and delegate to
  `ReconnectingClientFactory`, scheduling a retry at an increased delay. -/
def step (st : Factory) (a : Act) : Factory × List Ev :=
  match a with
  | Act.send_message ex m rk dm im man =>
      match fsend_message st ex m rk dm im man with
      | Except.ok r => (r.1, r.2.1)
      | Except.error _ => (st, [])
  | Act.read ex cb rk q na =>
      match fread st ex cb rk q na with
      | Except.ok r => r
      | Except.error _ => (st, [])
  | Act.transportConnected =>
      ({ st with
          p := some { connected := false, consumer_tag := 0, hs := HState.connectingAuth }
          delay := 0 },
       [Ev.start st.user st.password])
  | Act.authOk =>
      match st.p with
      | some p =>
          if p.hs = HState.connectingAuth then
            ({ st with p := some { p with hs := HState.gettingChannel } }, [Ev.channel 1])
          else (st, [])
      | Option.none => (st, [])
  | Act.authFailed => (st, [Ev.log "AMQP authentication failed"])
  | Act.channelOk =>
      match st.p with
      | some p =>
          if p.hs = HState.gettingChannel then
            ({ st with p := some { p with hs := HState.openingChannel } }, [Ev.channel_open])
          else (st, [])
      | Option.none => (st, [])
  | Act.channelFailed => (st, [Ev.log "Error getting channel"])
  | Act.channel_openOk =>
      match st.p with
      | some p =>
          if p.hs = HState.openingChannel then channel_open_step st p
          else (st, [])
      | Option.none => (st, [])
  | Act.channel_openFailed => (st, [Ev.log "Channel open failed"])
  | Act.connectionLost =>
      ({ st with p := Option.none, delay := st.delay + 1 },
       [Ev.log "Client connection lost."])
  | Act.connectionFailed =>
      ({ st with delay := st.delay + 1 }, [Ev.log "Connection failed."])

/-- Run a trace of actions, concatenating the emitted events. -/
def runActs (st : Factory) : List Act → Factory × List Ev
  | [] => (st, [])
  | a :: r =>
      let s1 := step st a
      let s2 := runActs s1.1 r
      (s2.1, s1.2 ++ s2.2)

/-- Outcome of one yielded broker directive. -/
inductive Outcome where
  | ok
  | err
deriving DecidableEq

/-- Final disposition of a message's completion handle (the `sent` deferred). -/
inductive HandleRes where
  | unresolved
  | firedOk
  | firedErr
deriving DecidableEq

/-- amqp.py lines 175-196, `AMQPProtocol._send_message`, with an explicit
outcome for each yielded directive.  If `exchange_declare` fails, the failure
is thrown into the `inlineCallbacks` generator, which has no handler for it:
the deferred returned by `_send_message` errbacks unobserved and the message
callback, never chained, stays unresolved.  If `basic_publish` fails, the
errback `_send_message_err` (added before `chainDeferred`) logs the failure
and returns `None`, switching the deferred to its callback chain, so
`chainDeferred` fires the completion handle as a success carrying `None`. -/
def send_message_proc (m : QMsg) (declareOut publishOut : Outcome) :
    List Ev × HandleRes :=
  let exchange_cfg := exchangeCfgOf m.exchange
  match declareOut with
  | Outcome.err => ([Ev.exchange_declare exchange_cfg], HandleRes.unresolved)
  | Outcome.ok =>
      let pubEv := Ev.basic_publish (dget exchange_cfg "exchange") m.routing_key
        m.msg m.delivery_mode m.immediate m.mandatory m.qid
      match publishOut with
      | Outcome.err =>
          ([Ev.exchange_declare exchange_cfg, pubEv, Ev.log "Sending message failed"],
           HandleRes.firedOk)
      | Outcome.ok => ([Ev.exchange_declare exchange_cfg, pubEv], HandleRes.firedOk)

/-- The drain loop of amqp.py lines 114-119 with per-message directive
outcomes supplied by an oracle keyed on the message's `qid`. -/
def send_drain_proc : List QMsg → (Nat → Outcome × Outcome) → List Ev × List (Nat × HandleRes)
  | [], _ => ([], [])
  | m :: r, oracle =>
      let o := oracle m.qid
      let s1 := send_message_proc m o.1 o.2
      let s2 := send_drain_proc r oracle
      (s1.1 ++ s2.1, (m.qid, s1.2) :: s2.2)

/-- amqp.py lines 198-210, `AMQPProtocol._read_item`: re-arm `queue.get()`
(with the same callback wiring) first, then run the subscription handler on
the item, then, only when `no_ack` is false, `basic_ack` its delivery tag. -/
def read_item_events (consumer_tag : String) (callback : Nat) (no_ack : Bool)
    (payload : String) (delivery_tag : Nat) : List Ev :=
  [Ev.queue_get consumer_tag callback no_ack, Ev.handler callback payload] ++
    (if no_ack then [] else [Ev.basic_ack delivery_tag])

/-- The failure reaching the delivery loop's errback chain. -/
inductive ReadFailure where
  | closed
  | other (s : String)
deriving DecidableEq

/-- amqp.py lines 212-217: `_read_queue_closed` traps `txamqp.queue.Closed`
and prints; any other failure passes through to `_read_item_err`, which
prints it.  Neither errback re-arms `queue.get()`. -/
def read_errback (f : ReadFailure) : List Ev :=
  match f with
  | ReadFailure.closed => [Ev.log "Queue closed"]
  | ReadFailure.other _ => [Ev.log "Error reading item"]

/-- Ghost ids of the publishes in an event list, in emission order. -/
def publishQids : List Ev → List Nat
  | [] => []
  | Ev.basic_publish _ _ _ _ _ _ q :: r => q :: publishQids r
  | _ :: r => publishQids r

/-- The `(queue, no_ack, consumer_tag)` of each `basic_consume` directive in
an event list, in emission order. -/
def consumeItems : List Ev → List (PyVal × Bool × String)
  | [] => []
  | Ev.basic_consume q na tag :: r => (q, na, tag) :: consumeItems r
  | _ :: r => consumeItems r

/-- Number of firings of the factory's initial-connect deferred. -/
def countFire : List Ev → Nat
  | [] => 0
  | Ev.fireInitial :: r => countFire r + 1
  | _ :: r => countFire r

/-- The queue name a `ReadEntry` ends up consuming from. -/
def queueNameOf (e : ReadEntry) : PyVal :=
  dget (queueCfgOf (defaultedQueue e.exchange e.queue)) "queue"

/-- The consume directives expected from activating a subscription list when
the protocol's consumer-tag counter currently reads `n`. -/
def expectedConsumes (n : Nat) : List ReadEntry → List (PyVal × Bool × String)
  | [] => []
  | e :: r => (queueNameOf e, e.no_ack, toString (n + 1)) :: expectedConsumes (n + 1) r

/-- A concrete outbound message used as a test input. -/
def mC2 : QMsg :=
  { exchange := PyArg.str "e", routing_key := "", msg := "m", delivery_mode := 2,
    immediate := false, mandatory := false, qid := 0 }

/-- Transport connects, then authentication fails. -/
def tC3 : List Act := [Act.transportConnected, Act.authFailed]

/-- The spec's first-connect scenario: `subscribe("orders", handler)` then
`send("orders", b"hello")` before any connection exists, then a fully
successful connect.  `AMQPFactory.read` is called with its default
`queue=None`. -/
def tC4 : List Act :=
  [Act.read (PyArg.str "orders") (some 0) "" PyArg.none true,
   Act.send_message (PyArg.str "orders") (some "hello") "" 2 false false,
   Act.transportConnected, Act.authOk, Act.channelOk, Act.channel_openOk]

/-- A factory with one registered subscription whose protocol has reached the
channel-opening stage but is not yet ready. -/
def stC5 : Factory :=
  (runActs factory0 [Act.read (PyArg.str "a") (some 7) "" PyArg.none true,
    Act.transportConnected, Act.authOk, Act.channelOk]).1

/-- A factory with one queued message whose protocol has reached the
channel-opening stage but is not yet ready. -/
def stC6 : Factory :=
  (runActs factory0 [Act.send_message (PyArg.str "e") (some "m") "" 2 false false,
    Act.transportConnected, Act.authOk, Act.channelOk]).1

/-- A failed connection attempt followed by a successful transport connect
(no handshake step completed yet). -/
def tC8 : List Act := [Act.connectionFailed, Act.transportConnected]

/-! ### Shared lemmas about the event extractors and the drain/activation loops -/

theorem publishQids_append (a b : List Ev) :
    publishQids (a ++ b) = publishQids a ++ publishQids b := by
  induction a with
  | nil => rfl
  | cons e r ih => cases e <;> simp [publishQids, ih]

theorem consumeItems_append (a b : List Ev) :
    consumeItems (a ++ b) = consumeItems a ++ consumeItems b := by
  induction a with
  | nil => rfl
  | cons e r ih => cases e <;> simp [consumeItems, ih]

theorem countFire_append (a b : List Ev) :
    countFire (a ++ b) = countFire a + countFire b := by
  induction a with
  | nil => simp [countFire]
  | cons e r ih => cases e <;> simp [countFire, ih] <;> omega

theorem publishQids_send_drain (msgs : List QMsg) :
    publishQids (send_drain msgs) = msgs.map QMsg.qid := by
  induction msgs with
  | nil => rfl
  | cons m r ih =>
      simp [send_drain, publishQids_append, send_message_events, publishQids, ih]

theorem consumeItems_send_drain (msgs : List QMsg) :
    consumeItems (send_drain msgs) = [] := by
  induction msgs with
  | nil => rfl
  | cons m r ih =>
      simp [send_drain, consumeItems_append, send_message_events, consumeItems, ih]

theorem countFire_send_drain (msgs : List QMsg) :
    countFire (send_drain msgs) = 0 := by
  induction msgs with
  | nil => rfl
  | cons m r ih =>
      simp [send_drain, countFire_append, send_message_events, countFire, ih]

theorem publishQids_setup_read (p : Proto) (ex : PyArg) (rk : String) (cb : Nat)
    (q : PyArg) (na : Bool) : publishQids (setup_read p ex rk cb q na).2 = [] := rfl

theorem consumeItems_setup_read (p : Proto) (ex : PyArg) (rk : String) (cb : Nat)
    (q : PyArg) (na : Bool) :
    consumeItems (setup_read p ex rk cb q na).2 =
      [(queueNameOf ⟨ex, rk, cb, q, na⟩, na, toString (p.consumer_tag + 1))] := rfl

theorem countFire_setup_read (p : Proto) (ex : PyArg) (rk : String) (cb : Nat)
    (q : PyArg) (na : Bool) : countFire (setup_read p ex rk cb q na).2 = 0 := rfl

theorem setup_read_fst (p : Proto) (ex : PyArg) (rk : String) (cb : Nat)
    (q : PyArg) (na : Bool) :
    (setup_read p ex rk cb q na).1 = { p with consumer_tag := p.consumer_tag + 1 } := rfl

theorem publishQids_setup_reads (es : List ReadEntry) (p : Proto) :
    publishQids (setup_reads p es).2 = [] := by
  induction es generalizing p with
  | nil => rfl
  | cons e r ih => simp [setup_reads, publishQids_append, publishQids_setup_read, ih]

theorem consumeItems_setup_reads (es : List ReadEntry) (p : Proto) :
    consumeItems (setup_reads p es).2 = expectedConsumes p.consumer_tag es := by
  induction es generalizing p with
  | nil => rfl
  | cons e r ih =>
      simp [setup_reads, consumeItems_append, consumeItems_setup_read,
        setup_read_fst, expectedConsumes, ih]

theorem countFire_setup_reads (es : List ReadEntry) (p : Proto) :
    countFire (setup_reads p es).2 = 0 := by
  induction es generalizing p with
  | nil => rfl
  | cons e r ih => simp [setup_reads, countFire_append, countFire_setup_read, ih]

theorem range1_append (a b c : Nat) (h1 : a ≤ b) (h2 : b ≤ c) :
    List.range' a (b - a) ++ List.range' b (c - b) = List.range' a (c - a) := by
  have e := List.range'_append_1 a (b - a) (c - b)
  rw [show a + (b - a) = b by omega] at e
  rw [e, show c - b + (b - a) = c - a by omega]

theorem fsend_message_ok (st : Factory) (ex : PyArg) (m : Option String)
    (rk : String) (dm : Nat) (im man : Bool) (r : Factory × List Ev × Nat)
    (h : fsend_message st ex m rk dm im man = Except.ok r) :
    r.1.nextQid = st.nextQid + 1
    ∧ publishQids r.2.1 ++ r.1.queued_messages.map QMsg.qid
        = st.queued_messages.map QMsg.qid ++ [st.nextQid]
    ∧ r.1.read_list = st.read_list
    ∧ r.1.initial_deferred_fired = st.initial_deferred_fired
    ∧ r.1.p = st.p
    ∧ r.1.delay = st.delay
    ∧ consumeItems r.2.1 = []
    ∧ countFire r.2.1 = 0
    ∧ r.2.2 = st.nextQid := by
  unfold fsend_message at h
  split at h
  · exact absurd h (by simp)
  · dsimp only at h
    split at h
    · split at h
      · injection h with h2
        subst h2
        simp [publishQids_send_drain, consumeItems_send_drain, countFire_send_drain]
      · injection h with h2
        subst h2
        simp [publishQids, consumeItems, countFire]
    · injection h with h2
      subst h2
      simp [publishQids, consumeItems, countFire]

theorem fread_ok (st : Factory) (ex : PyArg) (cb : Option Nat) (rk : String)
    (q : PyArg) (na : Bool) (r : Factory × List Ev)
    (h : fread st ex cb rk q na = Except.ok r) :
    r.1.queued_messages = st.queued_messages
    ∧ r.1.nextQid = st.nextQid
    ∧ r.1.initial_deferred_fired = st.initial_deferred_fired
    ∧ r.1.delay = st.delay
    ∧ publishQids r.2 = []
    ∧ countFire r.2 = 0 := by
  unfold fread at h
  split at h
  · exact absurd h (by simp)
  · dsimp only at h
    split at h
    · split at h
      · injection h with h2
        subst h2
        simp [publishQids_setup_read, countFire_setup_read]
      · injection h with h2
        subst h2
        simp [publishQids, countFire]
    · injection h with h2
      subst h2
      simp [publishQids, countFire]

theorem channel_open_step_spec (st : Factory) (p : Proto) :
    (channel_open_step st p).1.queued_messages = []
    ∧ (channel_open_step st p).1.nextQid = st.nextQid
    ∧ (channel_open_step st p).1.initial_deferred_fired = true
    ∧ (channel_open_step st p).1.delay = st.delay
    ∧ (channel_open_step st p).1.read_list = st.read_list
    ∧ publishQids (channel_open_step st p).2 = st.queued_messages.map QMsg.qid
    ∧ consumeItems (channel_open_step st p).2 = expectedConsumes p.consumer_tag st.read_list
    ∧ countFire (channel_open_step st p).2 = (if st.initial_deferred_fired then 0 else 1) := by
  unfold channel_open_step
  dsimp only
  cases st.prefetch_count with
  | none =>
      cases hf : st.initial_deferred_fired <;>
        simp [publishQids_append, consumeItems_append, countFire_append,
          publishQids_setup_reads, consumeItems_setup_reads, countFire_setup_reads,
          publishQids_send_drain, consumeItems_send_drain, countFire_send_drain,
          publishQids, consumeItems, countFire]
  | some n =>
      by_cases hn : n = 0 <;> cases hf : st.initial_deferred_fired <;>
        simp [hn, publishQids_append, consumeItems_append, countFire_append,
          publishQids_setup_reads, consumeItems_setup_reads, countFire_setup_reads,
          publishQids_send_drain, consumeItems_send_drain, countFire_send_drain,
          publishQids, consumeItems, countFire]

theorem step_fifo (st : Factory) (a : Act) :
    publishQids (step st a).2 ++ ((step st a).1.queued_messages.map QMsg.qid)
      = st.queued_messages.map QMsg.qid
        ++ List.range' st.nextQid ((step st a).1.nextQid - st.nextQid) := by
  cases a with
  | send_message ex m rk dm im man =>
      rcases h : fsend_message st ex m rk dm im man with e | r
      · simp [step, h, publishQids]
      · obtain ⟨h1, h2, _⟩ := fsend_message_ok st ex m rk dm im man r h
        simp [step, h, h1, h2]
  | read ex cb rk q na =>
      rcases h : fread st ex cb rk q na with e | r
      · simp [step, h, publishQids]
      · obtain ⟨h1, h2, _, _, h5, _⟩ := fread_ok st ex cb rk q na r h
        simp [step, h, h1, h2, h5]
  | transportConnected => simp [step, publishQids]
  | authOk =>
      cases hp : st.p with
      | none => simp [step, hp, publishQids]
      | some p =>
          by_cases hh : p.hs = HState.connectingAuth <;> simp [step, hp, hh, publishQids]
  | authFailed => simp [step, publishQids]
  | channelOk =>
      cases hp : st.p with
      | none => simp [step, hp, publishQids]
      | some p =>
          by_cases hh : p.hs = HState.gettingChannel <;> simp [step, hp, hh, publishQids]
  | channelFailed => simp [step, publishQids]
  | channel_openOk =>
      cases hp : st.p with
      | none => simp [step, hp, publishQids]
      | some p =>
          by_cases hh : p.hs = HState.openingChannel
          · obtain ⟨h1, h2, _, _, _, h6, _⟩ := channel_open_step_spec st p
            simp [step, hp, hh, h1, h2, h6]
          · simp [step, hp, hh, publishQids]
  | channel_openFailed => simp [step, publishQids]
  | connectionLost => simp [step, publishQids]
  | connectionFailed => simp [step, publishQids]

theorem step_nextQid_le (st : Factory) (a : Act) : st.nextQid ≤ (step st a).1.nextQid := by
  cases a with
  | send_message ex m rk dm im man =>
      rcases h : fsend_message st ex m rk dm im man with e | r
      · simp [step, h]
      · have h1 := (fsend_message_ok st ex m rk dm im man r h).1
        simp [step, h, h1]
  | read ex cb rk q na =>
      rcases h : fread st ex cb rk q na with e | r
      · simp [step, h]
      · have h1 := (fread_ok st ex cb rk q na r h).2.1
        simp [step, h, h1]
  | transportConnected => simp [step]
  | authOk =>
      cases hp : st.p with
      | none => simp [step, hp]
      | some p => by_cases hh : p.hs = HState.connectingAuth <;> simp [step, hp, hh]
  | authFailed => simp [step]
  | channelOk =>
      cases hp : st.p with
      | none => simp [step, hp]
      | some p => by_cases hh : p.hs = HState.gettingChannel <;> simp [step, hp, hh]
  | channelFailed => simp [step]
  | channel_openOk =>
      cases hp : st.p with
      | none => simp [step, hp]
      | some p =>
          by_cases hh : p.hs = HState.openingChannel
          · simp [step, hp, hh, (channel_open_step_spec st p).2.1]
          · simp [step, hp, hh]
  | channel_openFailed => simp [step]
  | connectionLost => simp [step]
  | connectionFailed => simp [step]

theorem step_fire (st : Factory) (a : Act) :
    (if st.initial_deferred_fired then 1 else 0) + countFire (step st a).2
      = (if (step st a).1.initial_deferred_fired then 1 else 0) := by
  cases a with
  | send_message ex m rk dm im man =>
      rcases h : fsend_message st ex m rk dm im man with e | r
      · simp [step, h, countFire]
      · obtain ⟨_, _, _, h4, _, _, _, h8, _⟩ := fsend_message_ok st ex m rk dm im man r h
        simp [step, h, h4, h8]
  | read ex cb rk q na =>
      rcases h : fread st ex cb rk q na with e | r
      · simp [step, h, countFire]
      · obtain ⟨_, _, h3, _, _, h6⟩ := fread_ok st ex cb rk q na r h
        simp [step, h, h3, h6]
  | transportConnected => simp [step, countFire]
  | authOk =>
      cases hp : st.p with
      | none => simp [step, hp, countFire]
      | some p =>
          by_cases hh : p.hs = HState.connectingAuth <;> simp [step, hp, hh, countFire]
  | authFailed => simp [step, countFire]
  | channelOk =>
      cases hp : st.p with
      | none => simp [step, hp, countFire]
      | some p =>
          by_cases hh : p.hs = HState.gettingChannel <;> simp [step, hp, hh, countFire]
  | channelFailed => simp [step, countFire]
  | channel_openOk =>
      cases hp : st.p with
      | none => simp [step, hp, countFire]
      | some p =>
          by_cases hh : p.hs = HState.openingChannel
          · obtain ⟨_, _, h3, _, _, _, _, h8⟩ := channel_open_step_spec st p
            cases hf : st.initial_deferred_fired <;> simp [step, hp, hh, h3, h8, hf]
          · simp [step, hp, hh, countFire]
  | channel_openFailed => simp [step, countFire]
  | connectionLost => simp [step, countFire]
  | connectionFailed => simp [step, countFire]

theorem runActs_nextQid_le (t : List Act) (st : Factory) :
    st.nextQid ≤ (runActs st t).1.nextQid := by
  induction t generalizing st with
  | nil => simp [runActs]
  | cons a r ih =>
      simp only [runActs]
      exact Nat.le_trans (step_nextQid_le st a) (ih (step st a).1)

theorem runActs_fifo (t : List Act) (st : Factory) :
    publishQids (runActs st t).2 ++ ((runActs st t).1.queued_messages.map QMsg.qid)
      = st.queued_messages.map QMsg.qid
        ++ List.range' st.nextQid ((runActs st t).1.nextQid - st.nextQid) := by
  induction t generalizing st with
  | nil => simp [runActs, publishQids]
  | cons a r ih =>
      simp only [runActs]
      rw [publishQids_append, List.append_assoc, ih (step st a).1,
        ← List.append_assoc, step_fifo st a, List.append_assoc,
        range1_append st.nextQid (step st a).1.nextQid
          (runActs (step st a).1 r).1.nextQid (step_nextQid_le st a)
          (runActs_nextQid_le r (step st a).1)]

theorem runActs_fire (t : List Act) (st : Factory) :
    (if st.initial_deferred_fired then 1 else 0) + countFire (runActs st t).2
      = (if (runActs st t).1.initial_deferred_fired then 1 else 0) := by
  induction t generalizing st with
  | nil => simp [runActs, countFire]
  | cons a r ih =>
      simp only [runActs]
      rw [countFire_append]
      have h1 := step_fire st a
      have h2 := ih (step st a).1
      omega

theorem channel_open_step_order (st : Factory) (p : Proto) :
    ∃ A B C : List Ev, (channel_open_step st p).2 = A ++ B ++ C
      ∧ consumeItems A = expectedConsumes p.consumer_tag st.read_list
      ∧ publishQids A = []
      ∧ publishQids B = st.queued_messages.map QMsg.qid
      ∧ consumeItems B = []
      ∧ C = (if st.initial_deferred_fired then ([] : List Ev) else [Ev.fireInitial]) := by
  unfold channel_open_step
  dsimp only
  cases hpc : st.prefetch_count with
  | none =>
      refine ⟨(setup_reads { p with connected := true, hs := HState.ready } st.read_list).2,
        send_drain st.queued_messages,
        if st.initial_deferred_fired then [] else [Ev.fireInitial],
        by simp, ?_, ?_, ?_, ?_, rfl⟩
      · simp [consumeItems_setup_reads]
      · exact publishQids_setup_reads _ _
      · exact publishQids_send_drain _
      · exact consumeItems_send_drain _
  | some n =>
      refine ⟨(if n = 0 then [] else [Ev.basic_qos n])
          ++ (setup_reads { p with connected := true, hs := HState.ready } st.read_list).2,
        send_drain st.queued_messages,
        if st.initial_deferred_fired then [] else [Ev.fireInitial],
        by simp, ?_, ?_, ?_, ?_, rfl⟩
      · by_cases hn : n = 0 <;>
          simp [hn, consumeItems_append, consumeItems_setup_reads, consumeItems]
      · by_cases hn : n = 0 <;>
          simp [hn, publishQids_append, publishQids_setup_reads, publishQids]
      · exact publishQids_send_drain _
      · exact consumeItems_send_drain _

/-! ### The claims -/

/-- C1: over every trace of application calls and connection events, the ghost
ids of the publishes handed to the broker so far, followed by the ids of the
messages still sitting in the factory's queue, are exactly the ids of the
accepted `send_message` calls in call order (0, 1, 2, ...).  So hand-off to
`basic_publish` is strictly FIFO in enqueue order, a message leaves
`queued_messages` exactly when it is handed to a protocol for publishing and
is never re-queued, and a connection loss leaves the queue untouched (second
conjunct), so messages not yet handed off are drained in their original order
by the next protocol that reaches the ready state. -/
theorem C1_outbound_fifo (t : List Act) :
    publishQids (runActs factory0 t).2
        ++ ((runActs factory0 t).1.queued_messages.map QMsg.qid)
      = List.range (runActs factory0 t).1.nextQid
  ∧ ∀ st : Factory, (step st Act.connectionLost).1.queued_messages = st.queued_messages := by
  constructor
  · have h := runActs_fifo t factory0
    have e1 : factory0.queued_messages = [] := rfl
    have e2 : factory0.nextQid = 0 := rfl
    rw [e1, e2] at h
    simpa [List.range_eq_range'] using h
  · intro st
    simp [step]

/-- C2 counterexample: the claim says a queued message whose exchange-declare
or publish directive fails has its completion handle resolved with that
failure.  At this concrete message, a failing `basic_publish` resolves the
handle as a success (the errback `_send_message_err` swallows the failure
before `chainDeferred` runs), and a failing `exchange_declare` never resolves
the handle at all. -/
theorem C2_counterexample :
    (send_message_proc mC2 Outcome.ok Outcome.err).2 ≠ HandleRes.firedErr
  ∧ (send_message_proc mC2 Outcome.err Outcome.ok).2 ≠ HandleRes.firedErr := by
  constructor <;> decide

/-- C2 amended: for every queued message, a failing exchange-declare leaves
the completion handle unresolved forever (the error escapes the
`inlineCallbacks` generator unobserved), while a failing publish logs the
error and resolves the handle as a success carrying `None`; in both cases the
protocol state is untouched (`send_message_proc` neither reads nor writes
it), the message is not re-queued, and the drain loop still hands over every
remaining queued message exactly once, in order, whatever the per-message
outcomes. -/
theorem C2_publish_failure_swallowed (m : QMsg) (o : Outcome) (msgs : List QMsg)
    (oracle : Nat → Outcome × Outcome) :
    (send_message_proc m Outcome.err o).2 = HandleRes.unresolved
  ∧ (send_message_proc m Outcome.ok Outcome.err).2 = HandleRes.firedOk
  ∧ Ev.log "Sending message failed" ∈ (send_message_proc m Outcome.ok Outcome.err).1
  ∧ (send_drain_proc msgs oracle).2.map Prod.fst = msgs.map QMsg.qid := by
  refine ⟨rfl, rfl, by simp [send_message_proc], ?_⟩
  induction msgs with
  | nil => rfl
  | cons mm r ih => simp [send_drain_proc, ih]

/-- C3 counterexample: the claim says a failing handshake step transitions
the Session directly to Closed and reports the failure to the supervisor,
triggering the disconnect handling.  On the concrete trace "transport
connects, then authentication fails", the protocol is still installed and
still in its authenticating position (not closed, not dropped), the only
emitted effect is the log line, and no reconnection handling ran (the backoff
counter is untouched). -/
theorem C3_counterexample :
    (runActs factory0 tC3).1.p
        = some { connected := false, consumer_tag := 0, hs := HState.connectingAuth }
  ∧ (runActs factory0 tC3).1.p.map Proto.hs ≠ some HState.closed
  ∧ (runActs factory0 tC3).2
      = [Ev.start "guest" "guest", Ev.log "AMQP authentication failed"]
  ∧ (runActs factory0 tC3).1.delay = 0 := by
  decide

/-- C3 amended: when a handshake step fails (authentication, obtaining the
channel, or opening the channel), the errback only logs the error: the
factory and protocol state are completely unchanged, no transition to a
closed state occurs, and the supervisor's disconnect handling (dropping the
protocol and scheduling a backed-off reconnect) runs only when the transport
itself reports the connection lost. -/
theorem C3_handshake_failures_only_log (st : Factory) :
    (step st Act.authFailed).1 = st
  ∧ (step st Act.channelFailed).1 = st
  ∧ (step st Act.channel_openFailed).1 = st
  ∧ (step st Act.authFailed).2 = [Ev.log "AMQP authentication failed"]
  ∧ (step st Act.channelFailed).2 = [Ev.log "Error getting channel"]
  ∧ (step st Act.channel_openFailed).2 = [Ev.log "Channel open failed"]
  ∧ (step st Act.connectionLost).1.p = Option.none
  ∧ (step st Act.connectionLost).1.delay = st.delay + 1 :=
  ⟨rfl, rfl, rfl, rfl, rfl, rfl, rfl, rfl⟩

/-- C4: the spec's first-connect scenario.  The exchange "orders" is declared
with the documented defaults, consumption starts with consumer tag "1" and
the queued message is then published to "orders" with delivery-mode 2 - but
the queue is NOT declared as "orders": because `AMQPFactory.read` passes its
default `queue=None` to `setup_read`, the exchange-name defaulting (which
only fires for dict-typed queue arguments) is bypassed and the queue is
declared, bound and consumed with name `None`, contradicting both the claim
and the code's own comment "Use the exchange name as the queue name by
default." -/
theorem C4_queue_name_defaults_to_none :
    (runActs factory0 tC4).2 =
      [Ev.start "guest" "guest", Ev.channel 1, Ev.channel_open,
       Ev.exchange_declare [("type", PyVal.str "direct"), ("durable", PyVal.bool true),
         ("auto_delete", PyVal.bool false), ("exchange", PyVal.str "orders")],
       Ev.queue_declare [("durable", PyVal.bool true), ("exclusive", PyVal.bool false),
         ("auto_delete", PyVal.bool false), ("queue", PyVal.none)],
       Ev.queue_bind PyVal.none (PyVal.str "orders") "",
       Ev.basic_consume PyVal.none true "1",
       Ev.queue_get "1" 0 true,
       Ev.exchange_declare [("type", PyVal.str "direct"), ("durable", PyVal.bool true),
         ("auto_delete", PyVal.bool false), ("exchange", PyVal.str "orders")],
       Ev.basic_publish (PyVal.str "orders") "" "hello" 2 false false 0,
       Ev.fireInitial] := by
  decide

/-- C5: a protocol that completes its channel-open (reaching the ready state)
activates exactly the subscriptions registered so far, one `basic_consume`
per `read_list` entry in list order, with consumer tags "1", "2", ... in
increasing order (first conjunct; `expectedConsumes 0` enumerates the entries
in order with tags counting up from 1).  A subscription registered through
`AMQPFactory.read` while the current protocol is connected is activated
immediately on that protocol with its next tag, without waiting for a
reconnect (second conjunct).  Every transport connect installs a fresh
protocol whose consumer-tag counter restarts at 0, so tags restart at "1" on
each of the M new Sessions across reconnect cycles (third conjunct). -/
theorem C5_subscription_replay (st : Factory) (p : Proto)
    (h1 : st.p = some p) (h2 : p.hs = HState.openingChannel)
    (h3 : p.consumer_tag = 0) :
    consumeItems (step st Act.channel_openOk).2 = expectedConsumes 0 st.read_list
  ∧ (∀ (st2 : Factory) (p2 : Proto) (ex : PyArg) (cb : Nat) (rk : String)
        (q : PyArg) (na : Bool) (r : Factory × List Ev),
      st2.p = some p2 → p2.connected = true →
      fread st2 ex (some cb) rk q na = Except.ok r →
      consumeItems r.2 =
        [(queueNameOf ⟨ex, rk, cb, q, na⟩, na, toString (p2.consumer_tag + 1))])
  ∧ ∀ st3 : Factory, (step st3 Act.transportConnected).1.p
      = some { connected := false, consumer_tag := 0, hs := HState.connectingAuth } := by
  refine ⟨?_, ?_, ?_⟩
  · simp only [step, h1, h2, if_pos]
    have h := (channel_open_step_spec st p).2.2.2.2.2.2.1
    rw [h, h3]
  · intro st2 p2 ex cb rk q na r hp hc h
    unfold fread at h
    split at h
    · exact absurd h (by simp)
    · dsimp only at h
      rw [hp] at h
      dsimp only at h
      rw [if_pos hc] at h
      injection h with h2
      subst h2
      exact consumeItems_setup_read p2 ex rk cb q na
  · intro st3
    rfl

/-- C5 witness: a concrete factory with one registered subscription and a
protocol about to open its channel. -/
theorem C5_subscription_replay_witness :
    stC5.p = some { connected := false, consumer_tag := 0, hs := HState.openingChannel }
  ∧ consumeItems (step stC5 Act.channel_openOk).2 = expectedConsumes 0 stC5.read_list :=
  ⟨by decide,
   (C5_subscription_replay stC5
     { connected := false, consumer_tag := 0, hs := HState.openingChannel }
     (by decide) (by decide) (by decide)).1⟩

/-- C6: when a protocol completes its channel-open and enters the ready state,
its emitted effects decompose as `A ++ B ++ C`: first `A`, containing one
`basic_consume` per durable subscription in list order (and no publish), then
`B`, the queue drain, whose publishes are exactly the queued messages oldest
first (and which starts no consumption), then `C`, the firing of the
factory's one-shot initial-connect deferred exactly when it has not fired
before; the factory queue is empty afterwards.  Over any whole trace from
construction, the deferred fires exactly as many times as the
`initial_deferred_fired` flag records - 1 if some protocol ever reached ready,
0 otherwise, and never more than once regardless of later disconnects and
reconnects (last conjunct). -/
theorem C6_ready_sequence (st : Factory) (p : Proto)
    (h1 : st.p = some p) (h2 : p.hs = HState.openingChannel)
    (h3 : p.consumer_tag = 0) :
    (∃ A B C : List Ev, (step st Act.channel_openOk).2 = A ++ B ++ C
      ∧ consumeItems A = expectedConsumes 0 st.read_list
      ∧ publishQids A = []
      ∧ publishQids B = st.queued_messages.map QMsg.qid
      ∧ consumeItems B = []
      ∧ C = (if st.initial_deferred_fired then ([] : List Ev) else [Ev.fireInitial]))
  ∧ (step st Act.channel_openOk).1.queued_messages = []
  ∧ ∀ t : List Act,
      countFire (runActs factory0 t).2
        = (if (runActs factory0 t).1.initial_deferred_fired then 1 else 0) := by
  refine ⟨?_, ?_, ?_⟩
  · simp only [step, h1, h2, if_pos]
    obtain ⟨A, B, C, e1, e2, e3, e4, e5, e6⟩ := channel_open_step_order st p
    rw [h3] at e2
    exact ⟨A, B, C, e1, e2, e3, e4, e5, e6⟩
  · simp only [step, h1, h2, if_pos]
    exact (channel_open_step_spec st p).1
  · intro t
    have h := runActs_fire t factory0
    have e : factory0.initial_deferred_fired = false := rfl
    rw [e] at h
    simpa using h

/-- C6 witness: a concrete factory with one queued message and a protocol
about to open its channel. -/
theorem C6_ready_sequence_witness :
    stC6.p = some { connected := false, consumer_tag := 0, hs := HState.openingChannel }
  ∧ (step stC6 Act.channel_openOk).1.queued_messages = [] :=
  ⟨by decide,
   (C6_ready_sequence stC6
     { connected := false, consumer_tag := 0, hs := HState.openingChannel }
     (by decide) (by decide) (by decide)).2.1⟩

/-- C7: in the delivery loop, on every received item the wait for the next
item (`queue.get`, with the same callback wiring) is re-armed before the
handler is invoked, and when ack-mode is manual (`no_ack = false`) the
`basic_ack` is issued only after the handler, as the last effect; when the
delivery stream reports closed the errback only logs "Queue closed" and - as
for any failure reaching the errback chain - never re-arms the wait, so the
loop terminates without re-establishing itself within that protocol. -/
theorem C7_delivery_loop (tag : String) (cb : Nat) (na : Bool)
    (payload : String) (dt : Nat) :
    read_item_events tag cb na payload dt
      = Ev.queue_get tag cb na :: Ev.handler cb payload ::
          (if na then [] else [Ev.basic_ack dt])
  ∧ read_errback ReadFailure.closed = [Ev.log "Queue closed"]
  ∧ ∀ (f : ReadFailure) (t2 : String) (c2 : Nat) (n2 : Bool),
      Ev.queue_get t2 c2 n2 ∉ read_errback f := by
  refine ⟨rfl, rfl, ?_⟩
  intro f t2 c2 n2
  cases f <;> simp [read_errback]

/-- C8 counterexample: the claim says the backoff counter is reset to its
minimum on transitions to ready and that a connection attempt failing before
ready increments rather than resets it.  Concretely: after one failed attempt
the counter is 1; after the next attempt merely establishes the raw transport
(no handshake step completed, no protocol ever reached ready, the
initial-connect deferred is unfired) the counter is already back to 0,
because `buildProtocol` calls `resetDelay()` at transport-connect time. -/
theorem C8_counterexample :
    (runActs factory0 [Act.connectionFailed]).1.delay = 1
  ∧ (runActs factory0 tC8).1.delay = 0
  ∧ (runActs factory0 tC8).1.initial_deferred_fired = false
  ∧ (runActs factory0 tC8).1.p.map Proto.hs = some HState.connectingAuth := by
  decide

/-- C8 amended: the backoff counter is reset to its minimum when the raw
transport connection is established (`buildProtocol` calls `resetDelay()`),
before any handshake step runs; every failed connection attempt and every
connection loss increments it; and the transition to ready itself leaves the
counter unchanged - the reset attributed to reaching ready already happened at
transport connect. -/
theorem C8_backoff_reset_on_transport_connect (st : Factory) :
    (step st Act.transportConnected).1.delay = 0
  ∧ (step st Act.connectionFailed).1.delay = st.delay + 1
  ∧ (step st Act.connectionLost).1.delay = st.delay + 1
  ∧ ∀ p : Proto, (channel_open_step st p).1.delay = st.delay := by
  refine ⟨rfl, rfl, rfl, ?_⟩
  intro p
  exact (channel_open_step_spec st p).2.2.2.1

/-- C9: for every factory state (connected, mid-handshake, or with no
connection at all), `send_message` raises its synchronous assertion exactly
when the exchange or the payload is absent, and `read` exactly when the
exchange or the handler is absent; with valid arguments `send_message`
returns immediately with a fresh completion handle (the next ghost id) and
`read` succeeds, in every connection state - neither ever blocks on or
inspects network progress before accepting the call. -/
theorem C9_api_argument_checks (st : Factory) (ex : PyArg) (m : Option String)
    (rk : String) (dm : Nat) (im man : Bool) (cb : Option Nat) (q : PyArg)
    (na : Bool) :
    (exceptErr (fsend_message st ex m rk dm im man) = true
      ↔ (ex = PyArg.none ∨ m = Option.none))
  ∧ (exceptErr (fread st ex cb rk q na) = true
      ↔ (ex = PyArg.none ∨ cb = Option.none))
  ∧ (ex ≠ PyArg.none → m ≠ Option.none →
      ∃ (st2 : Factory) (evs : List Ev),
        fsend_message st ex m rk dm im man = Except.ok (st2, evs, st.nextQid)) := by
  refine ⟨?_, ?_, ?_⟩
  · unfold fsend_message
    by_cases hc : ex = PyArg.none ∨ m = Option.none
    · simp [hc, exceptErr]
    · rw [if_neg hc]
      dsimp only
      cases hp : st.p with
      | none => simp [exceptErr, hc]
      | some p => by_cases hcn : p.connected <;> simp [hcn, exceptErr, hc]
  · unfold fread
    by_cases hc : ex = PyArg.none ∨ cb = Option.none
    · simp [hc, exceptErr]
    · rw [if_neg hc]
      dsimp only
      cases hp : st.p with
      | none => simp [exceptErr, hc]
      | some p => by_cases hcn : p.connected <;> simp [hcn, exceptErr, hc]
  · intro hex hm
    unfold fsend_message
    rw [if_neg (by tauto)]
    dsimp only
    cases hp : st.p with
    | none => exact ⟨_, _, rfl⟩
    | some p =>
        dsimp only
        by_cases hcn : p.connected
        · rw [if_pos hcn]
          exact ⟨_, _, rfl⟩
        · rw [if_neg hcn]
          exact ⟨_, _, rfl⟩

/-- C9 witness: with a concrete valid exchange and payload, `send_message`
on the freshly constructed factory returns a completion handle at once. -/
theorem C9_api_argument_checks_witness :
    ∃ (st2 : Factory) (evs : List Ev),
      fsend_message factory0 (PyArg.str "e") (some "m") "" 2 false false
        = Except.ok (st2, evs, factory0.nextQid) :=
  (C9_api_argument_checks factory0 (PyArg.str "e") (some "m") "" 2 false false
    (some 0) PyArg.none true).2.2 (by decide) (by decide)

/-- C10: a factory constructed with every parameter left unset defaults to
user "guest", password "guest", vhost "/", host "localhost", port 5672 and
protocol spec file "amqp0-8.xml", and construction itself immediately emits
the TCP connect (or, with `use_ssl`, the SSL connect) to that address - there
is no separate connect operation, and no protocol exists yet. -/
theorem C10_constructor_defaults :
    factory0.user = "guest" ∧ factory0.password = "guest" ∧ factory0.vhost = "/"
  ∧ factory0.host = "localhost" ∧ factory0.port = 5672
  ∧ factory0.spec_file = "amqp0-8.xml"
  ∧ (mkFactory Option.none Option.none Option.none Option.none Option.none
      Option.none Option.none false).2 = [Ev.connectTCP "localhost" 5672]
  ∧ (mkFactory Option.none Option.none Option.none Option.none Option.none
      Option.none Option.none true).2 = [Ev.connectSSL "localhost" 5672]
  ∧ factory0.p = Option.none := by
  decide
